import Mathlib

/-!
Verification of the `logrotate` writer (package `logrotate`).

The embedding follows `writer.go`: the `Writer` front door (`Write`), the
shutdown sequence (`Close`), the drain loop (`listen`), and the constructor
(`New`).  Payload bytes are lists of naturals; filesystem calls made by the
drain loop (file creation, file write) and by `Close` (sync, fd close) are
given explicit success/failure environments so that the error-handling
behaviour of the source can be stated.  The size/lifetime rotation decision
applied by the drain loop before each write is modelled from the spec (see
`shouldRotate`), since only its configuration fields, documentation and
tests appear in the provided sources.
-/

namespace Logrotate

/-- Rotation configuration, from `Options` in the source: `MaximumFileSize`
in bytes (0 = no upper bound) and `MaximumLifetime` (0 = no time-based
rotation).  The directory and the naming function do not affect the
byte-level behaviour modelled here. -/
structure Options where
  maximumFileSize : Nat
  maximumLifetime : Nat
deriving DecidableEq

/-- A payload handed to the writer: its bytes, tagged with the time at
which the drain loop dequeues it (used by the lifetime policy). -/
structure Payload where
  bytes : List Nat
  time : Nat
deriving DecidableEq

/-- One log file: its content, the time it was opened and the time of the
last write appended to it. -/
structure FileRec where
  content : List Nat
  openedAt : Nat
  lastWriteAt : Nat
deriving DecidableEq

/-- State owned by the drain loop (`listen`): files already rotated out, in
creation order; the currently open file (`w.f`; `none` models a nil
handle); the diagnostic log lines emitted so far; and an iteration
counter. -/
structure ConsumerState where
  files : List FileRec
  cur : Option FileRec
  logs : List String
  step : Nat
deriving DecidableEq

/-- Fault environment for the filesystem calls made by the drain loop:
whether the file creation attempted at a given iteration succeeds, and
whether the file write at a given iteration succeeds. -/
structure Env where
  createOk : Nat → Bool
  writeOk : Nat → Bool

/-- The environment in which every filesystem call succeeds. -/
def allOk : Env := ⟨fun _ => true, fun _ => true⟩

/-- Diagnostic message logged by `listen` when file creation fails. -/
def createFailMsg : String := "Failed to create new file"

/-- Diagnostic message logged by `listen` when the file write fails. -/
def writeFailMsg : String := "Failed to write to file."

/-- Modelled from the spec: the rotation decision the drain loop applies
before each write.  The size policy (active when the maximum size is
positive) fires when writing the payload would push the current file past
the maximum; the lifetime policy (active when the maximum lifetime is
positive) fires when the time since the current file was opened exceeds
the lifetime.  The size/lifetime check of the drain loop is not among the
provided sources; only the `Options` fields, their documentation and the
rotation tests are. -/
def shouldRotate (opts : Options) (c : FileRec) (payloadLen now : Nat) : Bool :=
  (decide (0 < opts.maximumFileSize) &&
    decide (opts.maximumFileSize < c.content.length + payloadLen)) ||
  (decide (0 < opts.maximumLifetime) &&
    decide (opts.maximumLifetime < now - c.openedAt))

/-- One iteration of the drain loop (`listen`) for one dequeued payload:
apply the rotation policy (close the current file when it fires), open a
new file when there is no current one — a failed creation is logged and
leaves a nil handle, exactly as the source stores the nil `*os.File` —
and then write the payload to the current file.  A write on a nil handle
or a failed write is logged and the loop moves on. -/
def consumeOne (env : Env) (opts : Options) (s : ConsumerState) (p : Payload) :
    ConsumerState :=
  let s1 : ConsumerState :=
    match s.cur with
    | none => s
    | some c =>
      if shouldRotate opts c p.bytes.length p.time then
        { s with files := s.files ++ [c], cur := none }
      else s
  let s2 : ConsumerState :=
    match s1.cur with
    | none =>
      if env.createOk s1.step then
        { s1 with cur := some ⟨[], p.time, p.time⟩ }
      else
        { s1 with logs := s1.logs ++ [createFailMsg] }
    | some _ => s1
  let s3 : ConsumerState :=
    match s2.cur with
    | none => { s2 with logs := s2.logs ++ [writeFailMsg] }
    | some c =>
      if env.writeOk s2.step then
        { s2 with cur := some ⟨c.content ++ p.bytes, c.openedAt, p.time⟩ }
      else
        { s2 with logs := s2.logs ++ [writeFailMsg] }
  { s3 with step := s3.step + 1 }

/-- The drain loop: consume the queued payloads in FIFO order. -/
def drainE (env : Env) (opts : Options) (s : ConsumerState) (q : List Payload) :
    ConsumerState :=
  q.foldl (consumeOne env opts) s

/-- The consumer state of a freshly constructed writer: no file open, no
file produced, nothing logged. -/
def initConsumer : ConsumerState := ⟨[], none, [], 0⟩

/-- All files on disk for a consumer state: the rotated-out files followed
by the currently open one, in creation order. -/
def allFiles (s : ConsumerState) : List FileRec := s.files ++ s.cur.toList

/-- The files produced by draining a queue from a fresh writer with every
filesystem call succeeding. -/
def producedFiles (opts : Options) (q : List Payload) : List FileRec :=
  allFiles (drainE allOk opts initConsumer q)

/-- Concatenation of the contents of a list of files. -/
def contentsOf (l : List FileRec) : List Nat := (l.map FileRec.content).flatten

/-- Public state of a `Writer`: the closing signal, the queue of payloads
accepted but not yet consumed, and the drain-loop state. -/
structure WriterState where
  closing : Bool
  queue : List Payload
  consumer : ConsumerState
deriving DecidableEq

/-- The writer produced by the constructor: closing signal unset, empty
queue, fresh consumer state. -/
def initWriter : WriterState := ⟨false, [], initConsumer⟩

/-- `errors.Wrap` from github.com/pkg/errors, as used by the source:
wrapping a nil error yields nil; wrapping a non-nil error annotates it. -/
def errorsWrap (e : Option String) (msg : String) : Option String :=
  match e with
  | none => none
  | some s => some (msg ++ ": " ++ s)

/-- Result of one `Write` call: the updated writer, the byte count
returned, and the returned error. -/
structure WriteOutcome where
  w : WriterState
  n : Nat
  err : Option String
deriving DecidableEq

/-- `Write` from the source: when the closing signal is set, return
`0, errors.Wrap(err, "writer is closing")` where `err` is the named return
value, still nil at that point; otherwise register the submission, enqueue
the payload and return its length with a nil error. -/
def Write (w : WriterState) (p : Payload) : WriteOutcome :=
  if w.closing then
    { w := w, n := 0, err := errorsWrap none "writer is closing" }
  else
    { w := { w with queue := w.queue ++ [p] }, n := p.bytes.length, err := none }

/-- A sequence of `Write` calls, also accumulating whether every call in
the sequence succeeded with the full payload length accepted. -/
def writeAllChecked (w : WriterState) (q : List Payload) : WriterState × Bool :=
  q.foldl
    (fun acc p =>
      let o := Write acc.1 p
      (o.w, acc.2 && (o.err == none) && (o.n == p.bytes.length)))
    (w, true)

/-- Fault environment for the final step of `Close`: whether `f.Sync()`
succeeds and whether `f.Close()` succeeds. -/
structure CloseEnv where
  syncOk : Bool
  closeOk : Bool
deriving DecidableEq

/-- The error returned by `Close`, distinguishing the failing step. -/
inductive CloseError where
  | syncFailed (msg : String)
  | closeFailed (msg : String)
deriving DecidableEq

/-- Result of `Close`: the fully drained consumer state, the returned
error, and whether the sync and fd-close calls were made. -/
structure CloseOutcome where
  state : ConsumerState
  err : Option CloseError
  syncCalled : Bool
  fdCloseCalled : Bool
deriving DecidableEq

/-- `Close` from the source: signal closing, wait for pending submissions,
close the queue and wait for the drain loop to consume it entirely
(modelled by draining the queued payloads), then, if a file is currently
open, call `Sync` — a failure is returned as "failed to sync current log
file" and the fd-close call is never made — and then `Close` — a failure
is returned as "failed to close current log file". -/
def CloseW (cenv : CloseEnv) (env : Env) (opts : Options) (w : WriterState) :
    CloseOutcome :=
  let s := drainE env opts w.consumer w.queue
  match s.cur with
  | none => { state := s, err := none, syncCalled := false, fdCloseCalled := false }
  | some _ =>
    if cenv.syncOk then
      if cenv.closeOk then
        { state := s, err := none, syncCalled := true, fdCloseCalled := true }
      else
        { state := s, err := some (CloseError.closeFailed "failed to close current log file"),
          syncCalled := true, fdCloseCalled := true }
    else
      { state := s, err := some (CloseError.syncFailed "failed to sync current log file"),
        syncCalled := true, fdCloseCalled := false }

/-- Environment for the constructor: whether the configured directory
already exists, and whether the recursive `MkdirAll` call succeeds. -/
structure NewEnv where
  dirExists : Bool
  mkdirAllOk : Bool
deriving DecidableEq

/-- Result of `New`: the writer (when construction succeeds), the returned
error, and the permission mode passed to `MkdirAll` when it was called. -/
structure NewOutcome where
  writer : Option WriterState
  err : Option String
  mkdirAllMode : Option Nat
deriving DecidableEq

/-- `New` from the source: stat the directory; when it does not exist,
call `os.MkdirAll` with mode `0644`, and fail construction when that call
fails; otherwise build the writer (closing signal unset, empty queue,
capacity-1024 channel) and start the drain loop. -/
def New (env : NewEnv) (opts : Options) : NewOutcome :=
  if env.dirExists then
    { writer := some initWriter, err := none, mkdirAllMode := none }
  else if env.mkdirAllOk then
    { writer := some initWriter, err := none, mkdirAllMode := some 0o644 }
  else
    { writer := none,
      err := some "directory does not exist and could not be created",
      mkdirAllMode := some 0o644 }

/-! ### Characterisation of one drain-loop iteration with no faults -/

theorem consumeOne_allOk_none (opts : Options) (s : ConsumerState) (p : Payload)
    (h : s.cur = none) :
    consumeOne allOk opts s p =
      { s with cur := some ⟨p.bytes, p.time, p.time⟩, step := s.step + 1 } := by
  simp [consumeOne, allOk, h]

theorem consumeOne_allOk_rotate (opts : Options) (s : ConsumerState) (c : FileRec)
    (p : Payload) (h : s.cur = some c)
    (hr : shouldRotate opts c p.bytes.length p.time = true) :
    consumeOne allOk opts s p =
      { s with files := s.files ++ [c], cur := some ⟨p.bytes, p.time, p.time⟩,
               step := s.step + 1 } := by
  simp [consumeOne, allOk, h, hr]

theorem consumeOne_allOk_append (opts : Options) (s : ConsumerState) (c : FileRec)
    (p : Payload) (h : s.cur = some c)
    (hr : shouldRotate opts c p.bytes.length p.time = false) :
    consumeOne allOk opts s p =
      { s with cur := some ⟨c.content ++ p.bytes, c.openedAt, p.time⟩,
               step := s.step + 1 } := by
  simp [consumeOne, allOk, h, hr]

/-! ### C1: FIFO byte preservation -/

theorem contentsOf_append (a b : List FileRec) :
    contentsOf (a ++ b) = contentsOf a ++ contentsOf b := by
  simp [contentsOf]

theorem consumeOne_allOk_contents (opts : Options) (s : ConsumerState) (p : Payload) :
    contentsOf (allFiles (consumeOne allOk opts s p)) =
      contentsOf (allFiles s) ++ p.bytes := by
  cases h : s.cur with
  | none =>
    rw [consumeOne_allOk_none opts s p h]
    simp [allFiles, contentsOf, h]
  | some c =>
    by_cases hr : shouldRotate opts c p.bytes.length p.time
    · rw [consumeOne_allOk_rotate opts s c p h hr]
      simp [allFiles, contentsOf, h]
    · rw [consumeOne_allOk_append opts s c p h (by simpa using hr)]
      simp [allFiles, contentsOf, h]

theorem drainE_allOk_contents (opts : Options) :
    ∀ (q : List Payload) (s : ConsumerState),
      contentsOf (allFiles (drainE allOk opts s q)) =
        contentsOf (allFiles s) ++ (q.map Payload.bytes).flatten
  | [], s => by simp [drainE]
  | p :: q, s => by
    have ih := drainE_allOk_contents opts q (consumeOne allOk opts s p)
    simp only [drainE, List.foldl_cons] at ih ⊢
    rw [ih, consumeOne_allOk_contents]
    simp [List.append_assoc]

theorem writeAllChecked_of_not_closing :
    ∀ (q : List Payload) (w : WriterState), w.closing = false →
      writeAllChecked w q = ({ w with queue := w.queue ++ q }, true)
  | [], w, h => by simp [writeAllChecked]
  | p :: q, w, h => by
    have step : Write w p =
        { w := { w with queue := w.queue ++ [p] }, n := p.bytes.length, err := none } := by
      simp [Write, h]
    have ih := writeAllChecked_of_not_closing q { w with queue := w.queue ++ [p] } h
    simp only [writeAllChecked, List.foldl_cons] at ih ⊢
    rw [step]
    simpa [List.append_assoc] using ih

/-- Claim C1: for every sequence of successful `Write` calls followed by a
single `Close`, the concatenation of the bytes of all files produced by
the writer, in file-creation order, equals the concatenation of the
accepted payloads in the order they were enqueued: the write sequence from
a fresh writer succeeds in full, and after `Close` drains the queue the
files' contents concatenate, in creation order, to the concatenation of
the payloads in FIFO order — nothing lost, nothing reordered, and nothing
written after the close since the drained queue holds exactly the accepted
payloads. -/
theorem close_concat_eq_accepted_payloads (cenv : CloseEnv) (opts : Options)
    (q : List Payload) :
    (writeAllChecked initWriter q).2 = true ∧
      contentsOf (allFiles (CloseW cenv allOk opts (writeAllChecked initWriter q).1).state) =
        (q.map Payload.bytes).flatten := by
  have hw := writeAllChecked_of_not_closing q initWriter rfl
  refine ⟨by rw [hw], ?_⟩
  rw [hw]
  have hstate :
      (CloseW cenv allOk opts { initWriter with queue := initWriter.queue ++ q }).state =
        drainE allOk opts initConsumer q := by
    simp only [CloseW, initWriter, List.nil_append]
    cases hcur : (drainE allOk opts initConsumer q).cur with
    | none => simp
    | some c =>
      cases hs : cenv.syncOk <;> cases hc : cenv.closeOk <;> simp
  rw [hstate]
  have := drainE_allOk_contents opts q initConsumer
  simpa [allFiles, initConsumer, contentsOf] using this


/-! ### C2: size policy -/

theorem drain_size_invariant (opts : Options) (Q : List Payload)
    (hM : 0 < opts.maximumFileSize) :
    ∀ (q : List Payload) (s : ConsumerState), (∀ p ∈ q, p ∈ Q) →
      (∀ f ∈ allFiles s,
        f.content.length ≤ opts.maximumFileSize ∨ ∃ p ∈ Q, f.content = p.bytes) →
      ∀ f ∈ allFiles (drainE allOk opts s q),
        f.content.length ≤ opts.maximumFileSize ∨ ∃ p ∈ Q, f.content = p.bytes
  | [], s, _, hs => by simpa [drainE] using hs
  | p :: q, s, hq, hs => by
    have hpQ : p ∈ Q := hq p (List.mem_cons_self p q)
    have hqQ : ∀ r ∈ q, r ∈ Q := fun r hr => hq r (List.mem_cons_of_mem p hr)
    have hstep : ∀ f ∈ allFiles (consumeOne allOk opts s p),
        f.content.length ≤ opts.maximumFileSize ∨ ∃ r ∈ Q, f.content = r.bytes := by
      cases h : s.cur with
      | none =>
        rw [consumeOne_allOk_none opts s p h]
        intro f hf
        simp only [allFiles, Option.toList, List.mem_append, List.mem_singleton] at hf
        rcases hf with hf | hfp
        · exact hs f (by simp [allFiles, List.mem_append, hf])
        · exact Or.inr ⟨p, hpQ, by rw [hfp]⟩
      | some c =>
        cases hr : shouldRotate opts c p.bytes.length p.time with
        | true =>
          rw [consumeOne_allOk_rotate opts s c p h hr]
          intro f hf
          simp only [allFiles, Option.toList, List.mem_append, List.mem_singleton] at hf
          rcases hf with (hf | hfc) | hfp
          · exact hs f (by simp [allFiles, List.mem_append, hf])
          · rw [hfc]; exact hs c (by simp [allFiles, h])
          · exact Or.inr ⟨p, hpQ, by rw [hfp]⟩
        | false =>
          rw [consumeOne_allOk_append opts s c p h hr]
          intro f hf
          simp only [allFiles, Option.toList, List.mem_append, List.mem_singleton] at hf
          rcases hf with hf | hfc
          · exact hs f (by simp [allFiles, List.mem_append, hf])
          · left
            rw [hfc]
            simp only [shouldRotate, Bool.or_eq_false_iff, Bool.and_eq_false_iff,
              decide_eq_false_iff_not, not_lt] at hr
            rcases hr.1 with h1 | h1
            · omega
            · simpa using h1
    have := drain_size_invariant opts Q hM q (consumeOne allOk opts s p) hqQ hstep
    simpa [drainE, List.foldl_cons] using this

/-- Claim C2: when the maximum file size is positive, the drain loop
checks before each write whether the payload would push the current file
past the maximum and rotates first when it would, so every produced file
either stays within the configured maximum or consists of exactly one
(oversized) payload — in particular no file exceeds the maximum by more
than the size of one payload, and an oversized file is never written to
again. -/
theorem size_policy_bounds_files (opts : Options) (q : List Payload)
    (hM : 0 < opts.maximumFileSize) :
    ∀ f ∈ producedFiles opts q,
      f.content.length ≤ opts.maximumFileSize ∨ ∃ p ∈ q, f.content = p.bytes := by
  have := drain_size_invariant opts q hM q initConsumer (fun p hp => hp)
    (by simp [allFiles, initConsumer])
  simpa [producedFiles] using this

/-- Witness for C2 at a concrete input: maximum size 2, payloads of sizes
2, 3 and 1 — the size-2 file is full, the size-3 payload lands alone in an
oversized file, and the final file holds one byte. -/
theorem size_policy_bounds_files_witness :
    0 < (2 : Nat) ∧
      ∀ f ∈ producedFiles ⟨2, 0⟩ [⟨[10, 11], 0⟩, ⟨[20, 21, 22], 1⟩, ⟨[30], 2⟩],
        f.content.length ≤ 2 ∨
          ∃ p ∈ [Payload.mk [10, 11] 0, Payload.mk [20, 21, 22] 1, Payload.mk [30] 2],
            f.content = p.bytes :=
  ⟨by decide,
    size_policy_bounds_files ⟨2, 0⟩ [⟨[10, 11], 0⟩, ⟨[20, 21, 22], 1⟩, ⟨[30], 2⟩]
      (by decide)⟩

/-! ### C3: lifetime policy -/

theorem drain_lifetime_invariant (opts : Options)
    (hL : 0 < opts.maximumLifetime) :
    ∀ (q : List Payload) (s : ConsumerState),
      (∀ f ∈ allFiles s, f.lastWriteAt - f.openedAt ≤ opts.maximumLifetime) →
      ∀ f ∈ allFiles (drainE allOk opts s q),
        f.lastWriteAt - f.openedAt ≤ opts.maximumLifetime
  | [], s, hs => by simpa [drainE] using hs
  | p :: q, s, hs => by
    have hstep : ∀ f ∈ allFiles (consumeOne allOk opts s p),
        f.lastWriteAt - f.openedAt ≤ opts.maximumLifetime := by
      cases h : s.cur with
      | none =>
        rw [consumeOne_allOk_none opts s p h]
        intro f hf
        simp only [allFiles, Option.toList, List.mem_append, List.mem_singleton] at hf
        rcases hf with hf | hfp
        · exact hs f (by simp [allFiles, List.mem_append, hf])
        · rw [hfp]; simp
      | some c =>
        cases hr : shouldRotate opts c p.bytes.length p.time with
        | true =>
          rw [consumeOne_allOk_rotate opts s c p h hr]
          intro f hf
          simp only [allFiles, Option.toList, List.mem_append, List.mem_singleton] at hf
          rcases hf with (hf | hfc) | hfp
          · exact hs f (by simp [allFiles, List.mem_append, hf])
          · rw [hfc]; exact hs c (by simp [allFiles, h])
          · rw [hfp]; simp
        | false =>
          rw [consumeOne_allOk_append opts s c p h hr]
          intro f hf
          simp only [allFiles, Option.toList, List.mem_append, List.mem_singleton] at hf
          rcases hf with hf | hfc
          · exact hs f (by simp [allFiles, List.mem_append, hf])
          · rw [hfc]
            simp only [shouldRotate, Bool.or_eq_false_iff, Bool.and_eq_false_iff,
              decide_eq_false_iff_not, not_lt] at hr
            rcases hr.2 with h2 | h2
            · omega
            · simpa using h2
    have := drain_lifetime_invariant opts hL q (consumeOne allOk opts s p) hstep
    simpa [drainE, List.foldl_cons] using this

/-- Claim C3: when the maximum lifetime L is positive, the drain loop
checks on each arriving payload whether the time since the current file
was opened exceeds L and rotates before writing when it does, so no
produced file ever receives a write more than L after it was opened: for
every produced file the span from its opening time to its last write is at
most L — within the claimed bound of L plus one rotation-check interval —
and a payload arriving once L is exceeded lands in a freshly opened file
with the old one closed. -/
theorem lifetime_policy_bounds_active_span (opts : Options) (q : List Payload)
    (hL : 0 < opts.maximumLifetime) :
    (∀ f ∈ producedFiles opts q,
        f.lastWriteAt - f.openedAt ≤ opts.maximumLifetime) ∧
      ∀ (s : ConsumerState) (c : FileRec) (p : Payload), s.cur = some c →
        opts.maximumLifetime < p.time - c.openedAt →
        (consumeOne allOk opts s p).cur = some ⟨p.bytes, p.time, p.time⟩ ∧
          (consumeOne allOk opts s p).files = s.files ++ [c] := by
  constructor
  · have := drain_lifetime_invariant opts hL q initConsumer
      (by simp [allFiles, initConsumer])
    simpa [producedFiles] using this
  · intro s c p h hlate
    have hr : shouldRotate opts c p.bytes.length p.time = true := by
      simp only [shouldRotate, Bool.or_eq_true, Bool.and_eq_true, decide_eq_true_eq]
      exact Or.inr ⟨hL, hlate⟩
    rw [consumeOne_allOk_rotate opts s c p h hr]
    exact ⟨rfl, rfl⟩

/-- Witness for C3 at a concrete input: lifetime 5, a payload at time 0
and one at time 10 — the second arrival exceeds the lifetime, so it opens
a fresh file and every produced file's write span stays within 5. -/
theorem lifetime_policy_bounds_active_span_witness :
    0 < (5 : Nat) ∧
      ∀ f ∈ producedFiles ⟨0, 5⟩ [⟨[1], 0⟩, ⟨[2], 10⟩],
        f.lastWriteAt - f.openedAt ≤ 5 :=
  ⟨by decide,
    (lifetime_policy_bounds_active_span ⟨0, 5⟩ [⟨[1], 0⟩, ⟨[2], 10⟩] (by decide)).1⟩

/-! ### C4: Write after Close has begun -/

/-- A writer on which `Close` has begun: the closing signal is set. -/
def closedWriter : WriterState := ⟨true, [], initConsumer⟩

/-- A one-byte payload submitted after the closing signal. -/
def latePayload : Payload := ⟨[120], 0⟩

/-- Claim C4, evaluated on the code at the failing input: a `Write` made
after the closing signal is set accepts 0 bytes and enqueues nothing, but
the returned error is nil — the source returns
`errors.Wrap(err, "writer is closing")` where `err` is the still-nil named
return value, and `errors.Wrap` of a nil error is nil — contradicting the
claimed non-nil "writer is closing" error. -/
theorem write_after_close_returns_nil_error :
    (Write closedWriter latePayload).n = 0 ∧
      (Write closedWriter latePayload).err = none ∧
      (Write closedWriter latePayload).w = closedWriter :=
  ⟨rfl, rfl, rfl⟩

/-! ### C5 and C10: the constructor -/

/-- Claim C5: when the configured directory does not exist the constructor
creates it recursively (`MkdirAll`) and returns a ready-to-use writer
(closing signal unset, empty queue); when the directory does not exist and
cannot be created, `New` returns a non-nil error and no writer. -/
theorem New_creates_missing_directory_or_fails (env : NewEnv) (opts : Options)
    (h : env.dirExists = false) :
    (env.mkdirAllOk = true →
        (New env opts).mkdirAllMode = some 0o644 ∧
          (New env opts).writer = some initWriter ∧
          (New env opts).err = none ∧ initWriter.closing = false) ∧
      (env.mkdirAllOk = false →
        (New env opts).writer = none ∧ (New env opts).err.isSome = true) := by
  constructor <;> intro hm <;> simp [New, h, hm, initWriter]

/-- Witness for C5 at concrete inputs: an absent but creatable directory
yields a writer; an absent, uncreatable one yields an error and none. -/
theorem New_creates_missing_directory_or_fails_witness :
    (NewEnv.mk false true).dirExists = false ∧
      ((New ⟨false, true⟩ ⟨0, 0⟩).writer = some initWriter ∧
        (New ⟨false, true⟩ ⟨0, 0⟩).err = none) ∧
      ((New ⟨false, false⟩ ⟨0, 0⟩).writer = none ∧
        (New ⟨false, false⟩ ⟨0, 0⟩).err.isSome = true) :=
  ⟨rfl,
    ⟨((New_creates_missing_directory_or_fails ⟨false, true⟩ ⟨0, 0⟩ rfl).1 rfl).2.1,
      ((New_creates_missing_directory_or_fails ⟨false, true⟩ ⟨0, 0⟩ rfl).1 rfl).2.2.1⟩,
    (New_creates_missing_directory_or_fails ⟨false, false⟩ ⟨0, 0⟩ rfl).2 rfl⟩

/-- Claim C10: whenever the directory is absent, the constructor calls
`MkdirAll` with permission mode 0644 (octal), a mode with no execute bit
set on the directory. -/
theorem New_mkdirAll_mode_0644 (env : NewEnv) (opts : Options)
    (h : env.dirExists = false) :
    (New env opts).mkdirAllMode = some 0o644 ∧ Nat.land 0o644 0o111 = 0 := by
  refine ⟨?_, by decide⟩
  cases hm : env.mkdirAllOk <;> simp [New, h, hm]

/-- Witness for C10 at a concrete input. -/
theorem New_mkdirAll_mode_0644_witness :
    (NewEnv.mk false false).dirExists = false ∧
      ((New ⟨false, false⟩ ⟨0, 0⟩).mkdirAllMode = some 0o644 ∧
        Nat.land 0o644 0o111 = 0) :=
  ⟨rfl, New_mkdirAll_mode_0644 ⟨false, false⟩ ⟨0, 0⟩ rfl⟩

/-! ### C6: successful Write -/

/-- Claim C6: for every payload accepted by `Write` — the empty payload
included — the call returns the payload length with a nil error, the
payload is appended to the queue, and the consumer state is untouched by
the call itself: persistence happens asynchronously, after the call
returns. -/
theorem Write_accepts_and_returns_length (w : WriterState) (p : Payload)
    (h : w.closing = false) :
    (Write w p).n = p.bytes.length ∧ (Write w p).err = none ∧
      (Write w p).w.queue = w.queue ++ [p] ∧
      (Write w p).w.consumer = w.consumer ∧
      (Write w p).w.closing = false := by
  simp [Write, h]

/-- Witness for C6 at a concrete input: the empty payload is accepted with
a zero byte count. -/
theorem Write_accepts_and_returns_length_witness :
    initWriter.closing = false ∧
      ((Write initWriter ⟨[], 3⟩).n = 0 ∧ (Write initWriter ⟨[], 3⟩).err = none ∧
        (Write initWriter ⟨[], 3⟩).w.queue = initWriter.queue ++ [⟨[], 3⟩] ∧
        (Write initWriter ⟨[], 3⟩).w.consumer = initWriter.consumer ∧
        (Write initWriter ⟨[], 3⟩).w.closing = false) :=
  ⟨rfl, Write_accepts_and_returns_length initWriter ⟨[], 3⟩ rfl⟩

/-! ### C7: the final step of Close -/

/-- Claim C7: during `Close`, when a file is still open after the queue
has been fully drained (the sync/close step operates on the state produced
by draining every queued payload, strictly after the drain), the file is
synced and then closed; a sync failure is returned as the distinguished
"failed to sync current log file" error and the fd-close call is then
never made, while a close failure after a successful sync is returned as
the distinguished "failed to close current log file" error. -/
theorem Close_final_sync_then_close (cenv : CloseEnv) (env : Env) (opts : Options)
    (w : WriterState)
    (h : (drainE env opts w.consumer w.queue).cur.isSome = true) :
    (CloseW cenv env opts w).state = drainE env opts w.consumer w.queue ∧
      (CloseW cenv env opts w).syncCalled = true ∧
      (cenv.syncOk = false →
        (CloseW cenv env opts w).err =
            some (CloseError.syncFailed "failed to sync current log file") ∧
          (CloseW cenv env opts w).fdCloseCalled = false) ∧
      (cenv.syncOk = true → cenv.closeOk = false →
        (CloseW cenv env opts w).err =
            some (CloseError.closeFailed "failed to close current log file") ∧
          (CloseW cenv env opts w).fdCloseCalled = true) ∧
      (cenv.syncOk = true → cenv.closeOk = true →
        (CloseW cenv env opts w).err = none ∧
          (CloseW cenv env opts w).fdCloseCalled = true) := by
  rcases hcur : (drainE env opts w.consumer w.queue).cur with _ | c
  · rw [hcur] at h; simp at h
  · rcases cenv with ⟨sOk, cOk⟩
    cases sOk <;> cases cOk <;> simp [CloseW, hcur]

/-- Witness for C7 at a concrete input: one queued payload leaves a file
open after the drain; with a failing sync, `Close` returns the sync error
and never reaches the fd-close call. -/
theorem Close_final_sync_then_close_witness :
    (drainE allOk ⟨0, 0⟩ initConsumer [⟨[5], 0⟩]).cur.isSome = true ∧
      ((CloseW ⟨false, true⟩ allOk ⟨0, 0⟩ ⟨false, [⟨[5], 0⟩], initConsumer⟩).err =
          some (CloseError.syncFailed "failed to sync current log file") ∧
        (CloseW ⟨false, true⟩ allOk ⟨0, 0⟩
            ⟨false, [⟨[5], 0⟩], initConsumer⟩).fdCloseCalled = false) :=
  ⟨by decide,
    ((Close_final_sync_then_close ⟨false, true⟩ allOk ⟨0, 0⟩
        ⟨false, [⟨[5], 0⟩], initConsumer⟩ (by decide)).2.2.1 rfl)⟩

/-! ### C8: Close with zero prior writes -/

/-- Claim C8: `Close` on a writer that accepted zero writes returns a nil
error, never calls sync or fd-close, and leaves zero files: the drain loop
opens a file only when a payload arrives, so an empty queue produces an
empty directory. -/
theorem Close_with_zero_writes_creates_no_file (cenv : CloseEnv) (env : Env)
    (opts : Options) :
    (CloseW cenv env opts initWriter).err = none ∧
      allFiles (CloseW cenv env opts initWriter).state = [] ∧
      (CloseW cenv env opts initWriter).syncCalled = false ∧
      (CloseW cenv env opts initWriter).fdCloseCalled = false :=
  ⟨rfl, rfl, rfl, rfl⟩

/-! ### C9: failures inside the drain loop are non-fatal -/

theorem consumeOne_step (env : Env) (opts : Options) (s : ConsumerState)
    (p : Payload) :
    (consumeOne env opts s p).step = s.step + 1 := by
  cases hcur : s.cur with
  | none =>
    cases hc : env.createOk s.step with
    | true => cases hw : env.writeOk s.step <;> simp [consumeOne, hcur, hc, hw]
    | false => simp [consumeOne, hcur, hc]
  | some c =>
    cases hr : shouldRotate opts c p.bytes.length p.time with
    | true =>
      cases hc : env.createOk s.step with
      | true => cases hw : env.writeOk s.step <;> simp [consumeOne, hcur, hc, hw, hr]
      | false => simp [consumeOne, hcur, hc, hr]
    | false =>
      cases hw : env.writeOk s.step <;> simp [consumeOne, hcur, hw, hr]

theorem drainE_step (env : Env) (opts : Options) :
    ∀ (q : List Payload) (s : ConsumerState),
      (drainE env opts s q).step = s.step + q.length
  | [], s => by simp [drainE]
  | p :: q, s => by
    have ih := drainE_step env opts q (consumeOne env opts s p)
    simp only [drainE, List.foldl_cons] at ih ⊢
    rw [ih, consumeOne_step]
    simp only [List.length_cons]
    omega

/-- Claim C9: file-creation failures and write failures inside the drain
loop are non-fatal.  The loop processes every queued payload no matter
which filesystem calls fail (the iteration count always advances by the
queue length, and the loop's type returns nothing to the callers of
`Write`); a failed creation leaves the nil handle in place and logs the
creation failure to the injected logger, after which the write on the nil
handle is also logged, the state is otherwise untouched and the loop moves
on; a failed write to an open file is logged and leaves the file content
untouched while the loop moves on. -/
theorem listen_failures_are_nonfatal (env : Env) (opts : Options) :
    (∀ (q : List Payload) (s : ConsumerState),
        (drainE env opts s q).step = s.step + q.length) ∧
      (∀ (s : ConsumerState) (p : Payload), s.cur = none →
        env.createOk s.step = false →
        consumeOne env opts s p =
          { s with logs := s.logs ++ [createFailMsg, writeFailMsg],
                   step := s.step + 1 }) ∧
      (∀ (s : ConsumerState) (c : FileRec) (p : Payload), s.cur = some c →
        shouldRotate opts c p.bytes.length p.time = false →
        env.writeOk s.step = false →
        consumeOne env opts s p =
          { s with logs := s.logs ++ [writeFailMsg], step := s.step + 1 }) := by
  refine ⟨drainE_step env opts, ?_, ?_⟩
  · intro s p h hc
    simp [consumeOne, h, hc]
  · intro s c p h hr hw
    simp [consumeOne, h, hr, hw]

/-- The environment in which every filesystem call of the drain loop
fails. -/
def failEnv : Env := ⟨fun _ => false, fun _ => false⟩

/-- Witness for C9 at a concrete input: with every filesystem call
failing, a two-payload queue is still fully processed, and a failed
creation logs both diagnostics while leaving the state otherwise
unchanged. -/
theorem listen_failures_are_nonfatal_witness :
    (drainE failEnv ⟨0, 0⟩ initConsumer [⟨[1], 0⟩, ⟨[2], 0⟩]).step =
        initConsumer.step + 2 ∧
      consumeOne failEnv ⟨0, 0⟩ initConsumer ⟨[1], 0⟩ =
        { initConsumer with
            logs := initConsumer.logs ++ [createFailMsg, writeFailMsg],
            step := initConsumer.step + 1 } :=
  ⟨(listen_failures_are_nonfatal failEnv ⟨0, 0⟩).1 [⟨[1], 0⟩, ⟨[2], 0⟩] initConsumer,
    (listen_failures_are_nonfatal failEnv ⟨0, 0⟩).2.1 initConsumer ⟨[1], 0⟩ rfl rfl⟩

end Logrotate
